import Mathlib

/-!
Verification development for the Challawa pump monitoring application
(`challawa_app.py`).  The Python source is embedded shallowly:

* the 28-byte DB39 block decoder (`read_db39`, lines 195-242) becomes
  `Challawa.decodeBlock`, with S7 big-endian IEEE-754 singles decoded
  exactly into rationals (`Challawa.decodeF32`); Python's `round(x, 2)`
  is modelled as exact round-half-even to two decimals on the decoded
  value;
* the status derivation `_get_status` becomes `Challawa.getStatus`;
* the canonical error payload `_get_error_data` becomes
  `Challawa.errorFrame`;
* the connection/read state machine (`connect`, `read_db39` error
  accounting) and one iteration of `monitor_loop` become
  `Challawa.connectStep`, `Challawa.readDb39` and
  `Challawa.monitorCycle`, driven by an `Env` record describing the
  external world's responses (PLC connect/read outcomes, SQLite write
  outcomes) for that cycle; an uncaught exception escaping the loop body
  is the `CycleResult.crashed` constructor;
* the SQLite-backed queries `get_trip_events` and
  `get_pump_health_stats` become `Challawa.getTripEvents` and
  `Challawa.getPumpHealthStats` over an in-memory table of rows, with
  the TEXT timestamps `YYYY-MM-DD HH:MM:SS` modelled as a (day,
  second-of-day) pair compared through `Challawa.tsKey` (lexicographic
  string comparison on that format agrees with this order).
-/

namespace Challawa

/-- Result of decoding 4 bytes as an IEEE-754 binary32 value: either an
exact rational (finite values decode exactly), or a non-finite value. -/
inductive F32 where
  | finite (q : ℚ)
  | nan
  | inf
  | ninf
deriving DecidableEq

/-- Round a rational to the nearest integer, ties to even (the rounding
mode of Python's builtin `round`). -/
def roundHalfEven (x : ℚ) : ℤ :=
  let n := ⌊x⌋
  let fr := x - n
  if fr < 1/2 then n
  else if 1/2 < fr then n + 1
  else if n % 2 = 0 then n else n + 1

/-- Model of Python `round(x, 2)` applied to a decoded float: exact
half-even rounding of the value to two decimal places; non-finite
values pass through unchanged. -/
def round2 : F32 → F32
  | .finite q => .finite ((roundHalfEven (100 * q) : ℚ) / 100)
  | .nan => .nan
  | .inf => .inf
  | .ninf => .ninf

/-- Exact IEEE-754 binary32 decoding of a 32-bit word (the semantics of
`struct.unpack` inside `snap7.util.get_real`). -/
def decodeF32 (w : ℕ) : F32 :=
  let sign : ℕ := w / 2 ^ 31 % 2
  let expo : ℕ := w / 2 ^ 23 % 2 ^ 8
  let frac : ℕ := w % 2 ^ 23
  if expo = 255 then
    if frac = 0 then (if sign = 1 then .ninf else .inf) else .nan
  else
    let mag : ℚ :=
      if expo = 0 then (frac : ℚ) / 2 ^ 149
      else ((2 ^ 23 + frac : ℕ) : ℚ) * 2 ^ expo / 2 ^ 150
    .finite (if sign = 1 then -mag else mag)

/-- Byte `i` of the block (`data[i]`); reads past the end of the block
never occur on the 28-byte blocks the decoder is given. -/
def byteAt (bs : List ℕ) (i : ℕ) : ℕ := bs.getD i 0

/-- `snap7.util.get_bool(data, byteIdx, bitIdx)`. -/
def getBool (bs : List ℕ) (byteIdx bitIdx : ℕ) : Bool :=
  (byteAt bs byteIdx).testBit bitIdx

/-- `snap7.util.get_real(data, off)`: big-endian 32-bit float at byte
offset `off`. -/
def getReal (bs : List ℕ) (off : ℕ) : F32 :=
  decodeF32 ((((byteAt bs off * 256 + byteAt bs (off + 1)) * 256
    + byteAt bs (off + 2)) * 256 + byteAt bs (off + 3)))

/-- One pump's entry in the frame dictionary built by `read_db39`. -/
structure PumpReading where
  ready : Bool
  running : Bool
  trip : Bool
  pressure : F32
  pressureSetpoint : F32
  speed : F32
  status : String
deriving DecidableEq

/-- The dictionary returned by `read_db39` / `_get_error_data`. -/
structure Frame where
  alarm : Bool
  pump1 : PumpReading
  pump2 : PumpReading
  connected : Bool
deriving DecidableEq

/-- `DualPumpMonitor._get_status` (lines 256-264). -/
def getStatus (ready running trip : Bool) : String :=
  if trip then "TRIP"
  else if running then "RUNNING"
  else if ready then "READY"
  else "UNKNOWN"

/-- The parsing part of `read_db39` (lines 201-242), applied to the
bytes returned by `db_read`: fixed bit and byte offsets per the DB39
layout. -/
def decodeFrame (bs : List ℕ) : Frame :=
  let alarm := getBool bs 0 0
  let pump1Ready := getBool bs 0 1
  let pump1Running := getBool bs 0 2
  let pump1Trip := getBool bs 0 3
  let pump2Running := getBool bs 14 0
  let pump2Ready := getBool bs 14 1
  let pump2Trip := getBool bs 14 2
  { alarm := alarm
    pump1 :=
      { ready := pump1Ready
        running := pump1Running
        trip := pump1Trip
        pressure := round2 (getReal bs 2)
        pressureSetpoint := round2 (getReal bs 6)
        speed := round2 (getReal bs 10)
        status := getStatus pump1Ready pump1Running pump1Trip }
    pump2 :=
      { ready := pump2Ready
        running := pump2Running
        trip := pump2Trip
        pressure := round2 (getReal bs 16)
        pressureSetpoint := round2 (getReal bs 20)
        speed := round2 (getReal bs 24)
        status := getStatus pump2Ready pump2Running pump2Trip }
    connected := true }

/-- Decoding of a raw block: a block shorter than the 28 bytes the
parser indexes makes the byte accessors raise in the source (folded
into the caller's read-error path), modelled as `none`; a well-formed
block decodes totally. -/
def decodeBlock (bs : List ℕ) : Option Frame :=
  if bs.length < 28 then none else some (decodeFrame bs)

/-- `DualPumpMonitor._get_error_data` (lines 266-289). -/
def errorReading : PumpReading :=
  { ready := false
    running := false
    trip := false
    pressure := .finite 0
    pressureSetpoint := .finite 0
    speed := .finite 0
    status := "ERROR" }

/-- The canonical all-error frame returned by `_get_error_data`. -/
def errorFrame : Frame :=
  { alarm := false
    pump1 := errorReading
    pump2 := errorReading
    connected := false }

/-- The mutable fields of `DualPumpMonitor` that the sampling loop and
queries touch (`__init__`, lines 147-160); `running` and the PLC handle
are carried by the environment instead. -/
structure MState where
  connected : Bool
  prevPump1Trip : Bool
  prevPump2Trip : Bool
  readErrorCount : ℕ
  lastData : Option Frame
  readCount : ℕ
deriving DecidableEq

/-- The monitor's state right after `__init__`. -/
def initState : MState :=
  { connected := false
    prevPump1Trip := false
    prevPump2Trip := false
    readErrorCount := 0
    lastData := none
    readCount := 0 }

/-- `self.max_read_errors` (line 158). -/
def maxReadErrors : ℕ := 3

/-- The external world's responses during one cycle: whether
`plc.connect` leaves the client connected, what `plc.get_connected()`
reports before the read, what `plc.db_read` returns (`none` = raises),
and whether each of the two possible `sqlite3` trip-event inserts
succeeds (`false` = raises). -/
structure Env where
  connectOk : Bool
  plcLive : Bool
  readData : Option (List ℕ)
  store1Ok : Bool
  store2Ok : Bool
deriving DecidableEq

/-- `DualPumpMonitor.connect` (lines 162-176): on success the monitor
is connected and the consecutive-error counter is cleared; on failure
(exception or `get_connected()` false) the monitor is disconnected and
the counter is untouched. -/
def connectStep (s : MState) (ok : Bool) : MState × Bool :=
  if ok then ({ s with connected := true, readErrorCount := 0 }, true)
  else ({ s with connected := false }, false)

/-- The `except` branch of `read_db39` (lines 243-254): increment the
counter; at the threshold force a disconnect and clear the counter. -/
def readFail (s : MState) : MState × Frame :=
  if maxReadErrors ≤ s.readErrorCount + 1 then
    ({ s with connected := false, readErrorCount := 0 }, errorFrame)
  else ({ s with readErrorCount := s.readErrorCount + 1 }, errorFrame)

/-- `DualPumpMonitor.read_db39` (lines 186-254): pre-check the client
connection (failure returns error data without touching the counter),
then read; a successful `db_read` clears the counter before parsing, so
a parse failure increments from zero. -/
def readDb39 (s : MState) (plcLive : Bool) (readData : Option (List ℕ)) :
    MState × Frame :=
  if plcLive then
    match readData with
    | none => readFail s
    | some bs =>
      if bs.length < 28 then readFail { s with readErrorCount := 0 }
      else ({ s with readErrorCount := 0 }, decodeFrame bs)
  else ({ s with connected := false }, errorFrame)

/-- A persisted trip event's payload as passed to `log_trip_event`
(timestamp and autoincrement id are added by the store). -/
structure TripEventData where
  pumpId : ℕ
  pumpName : String
  eventType : String
  pressure : F32
  speed : F32
  description : String
deriving DecidableEq

/-- The pump-1 trip event logged at lines 316-321. -/
def tripEvent1 (f : Frame) : TripEventData :=
  { pumpId := 1
    pumpName := "LINE 7 MIXER"
    eventType := "TRIP"
    pressure := f.pump1.pressure
    speed := f.pump1.speed
    description := "Pump 1 tripped - fault detected" }

/-- The pump-2 trip event logged at lines 322-327. -/
def tripEvent2 (f : Frame) : TripEventData :=
  { pumpId := 2
    pumpName := "LINE 7 AHU/SYRUP ROOM"
    eventType := "TRIP"
    pressure := f.pump2.pressure
    speed := f.pump2.speed
    description := "Pump 2 tripped - fault detected" }

/-- Outcome of one iteration of `monitor_loop`: the connect-failure
path sleeps and `continue`s without producing a frame (`skipped`); the
normal path stores, processes and emits exactly one frame (`emitted`,
carrying the trip events successfully written this cycle); an uncaught
exception from `log_trip_event` escapes the loop body and terminates
the sampling thread (`crashed`, carrying the events written before the
failing insert). -/
inductive CycleResult where
  | skipped (s : MState)
  | emitted (s : MState) (frame : Frame) (events : List TripEventData)
  | crashed (s : MState) (events : List TripEventData)
deriving DecidableEq

/-- The body of `monitor_loop` once `self.connected` holds (lines
302-337): read, store the frame as `last_data`, and for a connected
frame bump `read_count`, log a trip event per rising edge (an insert
failure is uncaught and kills the loop), then update the previous-trip
memory; finally emit the frame (emit errors are caught). -/
def runConnected (s : MState) (e : Env) : CycleResult :=
  let r := readDb39 s e.plcLive e.readData
  let data := r.2
  let s2 := { r.1 with lastData := some data }
  if data.connected then
    let s3 := { s2 with readCount := s2.readCount + 1 }
    let edge1 := data.pump1.trip && !s3.prevPump1Trip
    if edge1 && !e.store1Ok then .crashed s3 []
    else
      let evs1 := if edge1 then [tripEvent1 data] else []
      let edge2 := data.pump2.trip && !s3.prevPump2Trip
      if edge2 && !e.store2Ok then .crashed s3 evs1
      else
        let evs := evs1 ++ (if edge2 then [tripEvent2 data] else [])
        let s4 := { s3 with
          prevPump1Trip := data.pump1.trip
          prevPump2Trip := data.pump2.trip }
        .emitted s4 data evs
  else .emitted s2 data []

/-- One iteration of `monitor_loop` (lines 295-339): when disconnected,
attempt a connect, and on failure sleep and continue with no frame;
otherwise run the connected body. -/
def monitorCycle (s : MState) (e : Env) : CycleResult :=
  if s.connected then runConnected s e
  else
    let c := connectStep s e.connectOk
    if c.2 then runConnected c.1 e else .skipped c.1

/-- Run `monitor_loop` through a list of per-cycle environments,
collecting the emitted frames and written trip events; a crash
terminates the loop. -/
def runLoop (s : MState) :
    List Env → MState × List Frame × List TripEventData
  | [] => (s, [], [])
  | e :: es =>
    match monitorCycle s e with
    | .skipped s1 =>
      runLoop s1 es
    | .emitted s1 f evs =>
      let r := runLoop s1 es
      (r.1, f :: r.2.1, evs ++ r.2.2)
    | .crashed s1 evs => (s1, [], evs)

/-- The `/api/status` handler `get_status` (lines 357-361): a fresh
`read_db39` through the shared monitor when connected, else the
canonical error payload with no state change. -/
def getStatusRoute (s : MState) (e : Env) : MState × Frame :=
  if s.connected then readDb39 s e.plcLive e.readData
  else (s, errorFrame)

/-- One row of the `trip_events` table.  The TEXT timestamp
`YYYY-MM-DD HH:MM:SS` written by `log_trip_event` is modelled as the
date (`day`) plus the second of that day (`sec`, < 86400); SQLite's
lexicographic TEXT comparison on that format agrees with comparing
`tsKey`. -/
structure StoredEvent where
  id : ℕ
  day : ℕ
  sec : ℕ
  pumpName : String
  pumpId : ℕ
  eventType : String
  pressure : ℚ
  speed : ℚ
  description : String
deriving DecidableEq

/-- Total order key of a stored timestamp. -/
def tsKey (ev : StoredEvent) : ℕ := ev.day * 86400 + ev.sec

/-- The `timestamp >= start_date` clause (line 93): a date-only string
compares lexicographically below every full timestamp of that day. -/
def startPred (d : ℕ) (ev : StoredEvent) : Bool := d * 86400 ≤ tsKey ev

/-- The `timestamp <= end_date + ' 23:59:59'` clause (lines 96-97). -/
def endPred (d : ℕ) (ev : StoredEvent) : Bool := tsKey ev ≤ d * 86400 + 86399

/-- The `WHERE` clause assembled by `get_trip_events` (lines 90-100);
each filter is added only when its parameter is truthy (absent dates,
and an absent or zero `pump_id`, add no clause). -/
def queryPred (startDate endDate pumpId : Option ℕ) (ev : StoredEvent) :
    Bool :=
  (match startDate with
   | none => true
   | some d => startPred d ev) &&
  (match endDate with
   | none => true
   | some d => endPred d ev) &&
  (match pumpId with
   | none => true
   | some p => if p = 0 then true else ev.pumpId == p)

/-- `ORDER BY timestamp DESC`: any later row precedes any earlier one. -/
def newerFirst (a b : StoredEvent) : Prop := tsKey b ≤ tsKey a

instance : DecidableRel newerFirst :=
  fun a b => Nat.decLe (tsKey b) (tsKey a)

instance : IsTotal StoredEvent newerFirst :=
  ⟨fun a b => Nat.le_total (tsKey b) (tsKey a)⟩

instance : IsTrans StoredEvent newerFirst :=
  ⟨fun _ _ _ hab hbc => Nat.le_trans hbc hab⟩

/-- `get_trip_events` (lines 87-105): the rows satisfying the optional
filters, ordered newest-first. -/
def getTripEvents (store : List StoredEvent)
    (startDate endDate pumpId : Option ℕ) : List StoredEvent :=
  List.insertionSort newerFirst
    (store.filter (queryPred startDate endDate pumpId))

/-- The `pump_names` lookup with its `Pump {id}` default (lines
120-123, 131). -/
def pumpNames (pid : ℕ) : String :=
  if pid = 1 then "LINE 7 MIXER"
  else if pid = 2 then "LINE 7 AHU/SYRUP ROOM"
  else "Pump " ++ toString pid

/-- The rows aggregated for one pump by the `GROUP BY` query of
`get_pump_health_stats` (lines 112-116): `trip_events` rows with
`event_type = 'TRIP'` and this `pump_id`. -/
def tripRows (store : List StoredEvent) (pid : ℕ) : List StoredEvent :=
  store.filter (fun ev => ev.eventType == "TRIP" && ev.pumpId == pid)

/-- `MAX(timestamp)` over a pump's trip rows. -/
def lastTripKey (rows : List StoredEvent) : ℕ :=
  rows.foldl (fun m ev => max m (tsKey ev)) 0

/-- One entry of the list returned by `get_pump_health_stats`. -/
structure HealthRecord where
  pumpId : ℕ
  pumpName : String
  totalTrips : ℕ
  lastTrip : Option ℕ
  healthScore : ℤ
deriving DecidableEq

/-- The record built for one pump id by the loop body of
`get_pump_health_stats` (lines 126-143): a pump with no `GROUP BY` row
gets zero trips, no last-trip timestamp and score 100, otherwise the
score is `max(0, 100 - 5 * trips)`. -/
def healthFor (store : List StoredEvent) (pid : ℕ) : HealthRecord :=
  if (tripRows store pid).isEmpty then
    { pumpId := pid
      pumpName := pumpNames pid
      totalTrips := 0
      lastTrip := none
      healthScore := 100 }
  else
    { pumpId := pid
      pumpName := pumpNames pid
      totalTrips := (tripRows store pid).length
      lastTrip := some (lastTripKey (tripRows store pid))
      healthScore := max 0 (100 - 5 * ((tripRows store pid).length : ℤ)) }

/-- `get_pump_health_stats` (lines 107-144): one record per pump id in
the fixed order `[1, 2]`. -/
def getPumpHealthStats (store : List StoredEvent) : List HealthRecord :=
  [1, 2].map (healthFor store)

/-- A well-formed 28-byte block whose first byte carries pump 1's trip
bit (bit 3) when `t`, all other bytes zero. -/
def tripBlock (t : Bool) : List ℕ :=
  (if t then 8 else 0) :: List.replicate 27 0

/-- A healthy cycle environment delivering `tripBlock t`. -/
def tripEnv (t : Bool) : Env :=
  { connectOk := true
    plcLive := true
    readData := some (tripBlock t)
    store1Ok := true
    store2Ok := true }

/-- The fixture block of the decoder test vector: byte 0 is
`0b00001010`, every other byte zero. -/
def fixtureBlock : List ℕ := 10 :: List.replicate 27 0

/-- A cycle environment in which the PLC connect attempt fails. -/
def envConnectFail : Env :=
  { connectOk := false
    plcLive := false
    readData := none
    store1Ok := true
    store2Ok := true }

/-- A monitor state that is connected with clean error accounting and
no prior trips. -/
def connState : MState :=
  { initState with connected := true }

/-- A cycle environment in which the read delivers a pump-1 trip frame
but the SQLite insert of the trip event fails. -/
def envStoreFail : Env :=
  { connectOk := true
    plcLive := true
    readData := some (tripBlock true)
    store1Ok := false
    store2Ok := true }

/-- The monitor state at the moment the failing insert is reached in
`envStoreFail`'s cycle. -/
def crashState : MState :=
  { connState with
    readErrorCount := 0
    lastData := some (decodeFrame (tripBlock true))
    readCount := 1 }

/-- A connected monitor state two consecutive read errors deep. -/
def twoErrState : MState :=
  { initState with
    connected := true
    readErrorCount := 2 }

/-- A cycle environment whose PLC session is alive but whose read
raises. -/
def envReadFail : Env :=
  { connectOk := true
    plcLive := true
    readData := none
    store1Ok := true
    store2Ok := true }
/-! ## General lemmas about the embedded operations -/

/-- Both branches of the read-failure handler return the error frame. -/
lemma readFail_snd (s : MState) : (readFail s).2 = errorFrame := by
  unfold readFail
  split <;> rfl

/-- `read_db39` returns either the canonical error payload or a decoded
frame. -/
lemma readDb39_frame (s : MState) (live : Bool) (rd : Option (List ℕ)) :
    (readDb39 s live rd).2 = errorFrame
    ∨ ∃ bs, (readDb39 s live rd).2 = decodeFrame bs := by
  unfold readDb39
  split
  · split
    · exact Or.inl (readFail_snd _)
    · split
      · exact Or.inl (readFail_snd _)
      · exact Or.inr ⟨_, rfl⟩
  · exact Or.inl rfl

/-- A frame reported by `read_db39` with `connected = false` is the
canonical error payload. -/
lemma readDb39_connected_false (s : MState) (live : Bool)
    (rd : Option (List ℕ))
    (h : (readDb39 s live rd).2.connected = false) :
    (readDb39 s live rd).2 = errorFrame := by
  rcases readDb39_frame s live rd with he | ⟨bs, hbs⟩
  · exact he
  · rw [hbs] at h
    simp [decodeFrame] at h

/-- `read_db39` never touches the previous-trip memory, the latest
frame snapshot or the successful-read counter. -/
lemma readDb39_fst_fields (s : MState) (live : Bool)
    (rd : Option (List ℕ)) :
    (readDb39 s live rd).1.prevPump1Trip = s.prevPump1Trip
    ∧ (readDb39 s live rd).1.prevPump2Trip = s.prevPump2Trip
    ∧ (readDb39 s live rd).1.lastData = s.lastData
    ∧ (readDb39 s live rd).1.readCount = s.readCount := by
  unfold readDb39 readFail
  split
  · split
    · split <;> exact ⟨rfl, rfl, rfl, rfl⟩
    · split
      · split <;> exact ⟨rfl, rfl, rfl, rfl⟩
      · exact ⟨rfl, rfl, rfl, rfl⟩
  · exact ⟨rfl, rfl, rfl, rfl⟩

/-- The frame carried by a completed connected-body cycle is exactly
the frame `read_db39` returned. -/
lemma runConnected_emitted_frame (s : MState) (e : Env) (s1 : MState)
    (f : Frame) (evs : List TripEventData)
    (h : runConnected s e = .emitted s1 f evs) :
    f = (readDb39 s e.plcLive e.readData).2 := by
  simp only [runConnected] at h
  split at h
  · split at h
    · exact absurd h (by simp)
    · split at h
      · exact absurd h (by simp)
      · injection h with h1 h2 h3
        exact h2.symm
  · injection h with h1 h2 h3
    exact h2.symm

/-- On a completed cycle carrying a connected frame, the written trip
events are exactly one per rising edge, with the payload snapshotted
from the same frame, and the previous-trip memory ends up equal to the
frame's trip flags. -/
lemma runConnected_edges (s : MState) (e : Env) (s1 : MState) (f : Frame)
    (evs : List TripEventData) (h : runConnected s e = .emitted s1 f evs)
    (hc : f.connected = true) :
    evs = (if f.pump1.trip && !s.prevPump1Trip then [tripEvent1 f] else [])
        ++ (if f.pump2.trip && !s.prevPump2Trip then [tripEvent2 f] else [])
    ∧ s1.prevPump1Trip = f.pump1.trip
    ∧ s1.prevPump2Trip = f.pump2.trip := by
  have hp := readDb39_fst_fields s e.plcLive e.readData
  simp only [runConnected] at h
  split at h
  case isTrue hcon =>
    split at h
    · exact absurd h (by simp)
    · split at h
      · exact absurd h (by simp)
      · injection h with h1 h2 h3
        subst h1
        subst h2
        subst h3
        exact ⟨by rw [hp.1, hp.2.1], rfl, rfl⟩
  case isFalse hcon =>
    injection h with h1 h2 h3
    subst h2
    exact absurd hc (by simpa using hcon)

/-- When both SQLite inserts succeed, the connected body always
completes and emits exactly one frame. -/
lemma runConnected_total (s : MState) (e : Env) (h1 : e.store1Ok = true)
    (h2 : e.store2Ok = true) :
    ∃ s1 f evs, runConnected s e = .emitted s1 f evs := by
  simp only [runConnected, h1, h2, Bool.not_true, Bool.and_false]
  split
  · exact ⟨_, _, _, rfl⟩
  · exact ⟨_, _, _, rfl⟩

/-- A cycle that emits a frame ran the connected body from a state with
the same previous-trip memory as the cycle's start state. -/
lemma monitorCycle_emitted (s : MState) (e : Env) (s1 : MState)
    (f : Frame) (evs : List TripEventData)
    (h : monitorCycle s e = .emitted s1 f evs) :
    ∃ s0, runConnected s0 e = .emitted s1 f evs
      ∧ s0.prevPump1Trip = s.prevPump1Trip
      ∧ s0.prevPump2Trip = s.prevPump2Trip := by
  simp only [monitorCycle] at h
  split at h
  · exact ⟨s, h, rfl, rfl⟩
  · simp only [connectStep] at h
    split at h
    · exact ⟨{ s with connected := true, readErrorCount := 0 },
        by simpa using h, rfl, rfl⟩
    · simp at h

/-! ## Claims -/

/-- C1, counterexample: a cycle whose PLC connection attempt fails does
not produce or publish any frame — `monitor_loop` sleeps and
`continue`s, so the result is `skipped`, not an `emitted` all-error
frame. -/
theorem c1_skipped_cycle_cex :
    monitorCycle initState envConnectFail
      = CycleResult.skipped initState := by
  with_unfolding_all rfl

/-- C1 (amended): exactly one frame is produced and published per cycle
in which the monitor is already connected or the connect attempt
succeeds (and the cycle's event inserts do not raise); a cycle whose
connection attempt fails publishes no frame and merely retries after
the reconnect delay. -/
theorem c1_frame_per_cycle (s : MState) (e : Env) :
    (s.connected = false → e.connectOk = false →
      monitorCycle s e = CycleResult.skipped { s with connected := false })
    ∧ ((s.connected = true ∨ e.connectOk = true) →
        e.store1Ok = true → e.store2Ok = true →
        ∃ s1 f evs, monitorCycle s e = CycleResult.emitted s1 f evs) := by
  constructor
  · intro hs hok
    simp [monitorCycle, connectStep, hs, hok]
  · intro hor h1 h2
    by_cases hs : s.connected = true
    · simp only [monitorCycle, hs, if_true]
      exact runConnected_total s e h1 h2
    · have hok : e.connectOk = true := hor.resolve_left hs
      simp only [monitorCycle, connectStep, hok, if_true,
        Bool.not_eq_true] at *
      split
      · exact runConnected_total _ e h1 h2
      · exact runConnected_total _ e h1 h2

/-- C1 witness: from the initial disconnected state, a cycle whose
connect attempt fails resolves to the frame-less `skipped` outcome. -/
theorem c1_frame_per_cycle_witness :
    monitorCycle initState envConnectFail
      = CycleResult.skipped { initState with connected := false } :=
  (c1_frame_per_cycle initState envConnectFail).1 rfl rfl

/-- C2: on every completed cycle carrying a connected frame, exactly
one TripEvent is written per rising edge of each pump's trip flag (none
on a falling edge or sustained true), with pressure and speed
snapshotted from the same frame, and the previous-trip memory is
updated to the frame's trip flags regardless of edge outcome; moreover
driving the loop with connected frames whose pump-1 trip flag follows
false, false, true, true, false, true writes exactly 2 TripEvents. -/
theorem c2_rising_edge_events :
    (∀ (s : MState) (e : Env) (s1 : MState) (f : Frame)
        (evs : List TripEventData),
      monitorCycle s e = CycleResult.emitted s1 f evs →
      f.connected = true →
      evs = (if f.pump1.trip && !s.prevPump1Trip then [tripEvent1 f] else [])
          ++ (if f.pump2.trip && !s.prevPump2Trip then [tripEvent2 f] else [])
      ∧ s1.prevPump1Trip = f.pump1.trip
      ∧ s1.prevPump2Trip = f.pump2.trip)
    ∧ (runLoop initState
        ([false, false, true, true, false, true].map tripEnv)).2.2.length
        = 2 := by
  constructor
  · intro s e s1 f evs h hc
    obtain ⟨s0, h0, hp1, hp2⟩ := monitorCycle_emitted s e s1 f evs h
    have hedge := runConnected_edges s0 e s1 f evs h0 hc
    rw [hp1, hp2] at hedge
    exact hedge
  · with_unfolding_all rfl

/-- The monitor state after one healthy pump-1-trip cycle from
`connState`. -/
def c2State : MState :=
  { connState with
    prevPump1Trip := true
    lastData := some (decodeFrame (tripBlock true))
    readCount := 1 }

/-- C2 witness: a cycle from a connected, no-previous-trip state that
reads a pump-1 trip frame writes exactly the single pump-1 TripEvent
and updates the previous-trip memory. -/
theorem c2_rising_edge_events_witness :
    [tripEvent1 (decodeFrame (tripBlock true))]
      = (if (decodeFrame (tripBlock true)).pump1.trip
            && !connState.prevPump1Trip
          then [tripEvent1 (decodeFrame (tripBlock true))] else [])
        ++ (if (decodeFrame (tripBlock true)).pump2.trip
              && !connState.prevPump2Trip
            then [tripEvent2 (decodeFrame (tripBlock true))] else [])
    ∧ c2State.prevPump1Trip = (decodeFrame (tripBlock true)).pump1.trip
    ∧ c2State.prevPump2Trip = (decodeFrame (tripBlock true)).pump2.trip :=
  c2_rising_edge_events.1 connState (tripEnv true) c2State
    (decodeFrame (tripBlock true)) [tripEvent1 (decodeFrame (tripBlock true))]
    (by with_unfolding_all rfl) (by with_unfolding_all rfl)

/-- C3: the derived status is TRIP if the trip flag is set, else
RUNNING if running, else READY if ready, else UNKNOWN, exhaustively
over the 8 flag combinations; and every decoded frame's status fields
are computed by this function from that reading's own three flags. -/
theorem c3_status_precedence :
    (getStatus false false false = "UNKNOWN"
      ∧ getStatus true false false = "READY"
      ∧ getStatus false true false = "RUNNING"
      ∧ getStatus true true false = "RUNNING"
      ∧ getStatus false false true = "TRIP"
      ∧ getStatus true false true = "TRIP"
      ∧ getStatus false true true = "TRIP"
      ∧ getStatus true true true = "TRIP")
    ∧ ∀ (bs : List ℕ) (f : Frame), decodeBlock bs = some f →
        f.pump1.status
          = getStatus f.pump1.ready f.pump1.running f.pump1.trip
        ∧ f.pump2.status
          = getStatus f.pump2.ready f.pump2.running f.pump2.trip := by
  constructor
  · exact ⟨rfl, rfl, rfl, rfl, rfl, rfl, rfl, rfl⟩
  · intro bs f h
    unfold decodeBlock at h
    split at h
    · exact absurd h (by simp)
    · injection h with hf
      subst hf
      exact ⟨rfl, rfl⟩

/-- C3 witness: the fixture block's decoded statuses are computed from
its own flags. -/
theorem c3_status_precedence_witness :
    (decodeFrame fixtureBlock).pump1.status
      = getStatus (decodeFrame fixtureBlock).pump1.ready
          (decodeFrame fixtureBlock).pump1.running
          (decodeFrame fixtureBlock).pump1.trip
    ∧ (decodeFrame fixtureBlock).pump2.status
      = getStatus (decodeFrame fixtureBlock).pump2.ready
          (decodeFrame fixtureBlock).pump2.running
          (decodeFrame fixtureBlock).pump2.trip :=
  c3_status_precedence.2 fixtureBlock (decodeFrame fixtureBlock)
    (by with_unfolding_all rfl)

/-- C4: a successful read resets the consecutive-error counter, a
failed read increments it, the third consecutive failure forces a
disconnect and resets the counter to zero, and a successful connect
also resets the counter. -/
theorem c4_error_accounting (s : MState) (bs : List ℕ) :
    (28 ≤ bs.length →
      readDb39 s true (some bs)
        = ({ s with readErrorCount := 0 }, decodeFrame bs))
    ∧ (s.readErrorCount + 1 < maxReadErrors →
        readDb39 s true none
          = ({ s with readErrorCount := s.readErrorCount + 1 }, errorFrame))
    ∧ (maxReadErrors ≤ s.readErrorCount + 1 →
        readDb39 s true none
          = ({ s with connected := false, readErrorCount := 0 }, errorFrame))
    ∧ connectStep s true
        = ({ s with connected := true, readErrorCount := 0 }, true)
    ∧ (readDb39 ((readDb39 ((readDb39 { s with readErrorCount := 0 }
          true none).1) true none).1) true none).1
        = { s with connected := false, readErrorCount := 0 } := by
  refine ⟨?_, ?_, ?_, rfl, rfl⟩
  · intro h
    have hlt : ¬ bs.length < 28 := by omega
    simp [readDb39, hlt]
  · intro h
    have hle : ¬ maxReadErrors ≤ s.readErrorCount + 1 := by omega
    simp [readDb39, readFail, hle]
  · intro h
    simp [readDb39, readFail, h]

/-- C4 witness: at the concrete two-error state, a third failed read
disconnects and clears the counter, and a fresh 28-byte read from a
clean state resets the counter. -/
theorem c4_error_accounting_witness :
    readDb39 twoErrState true none
      = ({ twoErrState with connected := false, readErrorCount := 0 },
          errorFrame)
    ∧ readDb39 connState true (some (tripBlock false))
      = ({ connState with readErrorCount := 0 },
          decodeFrame (tripBlock false)) :=
  ⟨(c4_error_accounting twoErrState []).2.2.1 (by decide),
    (c4_error_accounting connState (tripBlock false)).1 (by decide)⟩

/-- The canonical error reading of `_get_error_data`: all flags false,
all numeric fields zero, status ERROR. -/
def canonicalErrorReading (p : PumpReading) : Prop :=
  p.ready = false ∧ p.running = false ∧ p.trip = false
  ∧ p.pressure = F32.finite 0 ∧ p.pressureSetpoint = F32.finite 0
  ∧ p.speed = F32.finite 0 ∧ p.status = "ERROR"

/-- C5: every frame reported with `connected = false` — whether
returned by `read_db39` or published by a cycle of the sampling loop —
is the canonical all-error frame: system alarm false and both pumps'
readings canonical error readings. -/
theorem c5_error_frame_canonical (s : MState) (live : Bool)
    (rd : Option (List ℕ)) (e : Env) (s1 : MState) (f : Frame)
    (evs : List TripEventData) :
    ((readDb39 s live rd).2.connected = false →
      (readDb39 s live rd).2.alarm = false
      ∧ canonicalErrorReading (readDb39 s live rd).2.pump1
      ∧ canonicalErrorReading (readDb39 s live rd).2.pump2)
    ∧ (monitorCycle s e = CycleResult.emitted s1 f evs →
        f.connected = false →
        f.alarm = false
        ∧ canonicalErrorReading f.pump1
        ∧ canonicalErrorReading f.pump2) := by
  constructor
  · intro h
    rw [readDb39_connected_false s live rd h]
    exact ⟨rfl, ⟨rfl, rfl, rfl, rfl, rfl, rfl, rfl⟩,
      ⟨rfl, rfl, rfl, rfl, rfl, rfl, rfl⟩⟩
  · intro h hc
    obtain ⟨s0, h0, _, _⟩ := monitorCycle_emitted s e s1 f evs h
    have hf := runConnected_emitted_frame s0 e s1 f evs h0
    subst hf
    rw [readDb39_connected_false _ _ _ hc]
    exact ⟨rfl, ⟨rfl, rfl, rfl, rfl, rfl, rfl, rfl⟩,
      ⟨rfl, rfl, rfl, rfl, rfl, rfl, rfl⟩⟩

/-- C5 witness: the frame returned when the PLC session is down is the
canonical error frame. -/
theorem c5_error_frame_canonical_witness :
    (readDb39 initState false none).2.alarm = false
    ∧ canonicalErrorReading (readDb39 initState false none).2.pump1
    ∧ canonicalErrorReading (readDb39 initState false none).2.pump2 :=
  (c5_error_frame_canonical initState false none envConnectFail initState
    errorFrame []).1 (by with_unfolding_all rfl)

/-- C6, counterexample: a failed SQLite insert of a trip event is not
caught — the cycle ends in `crashed` (the exception escapes
`monitor_loop` and terminates the sampling thread) instead of
continuing to the next cycle. -/
theorem c6_store_failure_cex :
    monitorCycle connState envStoreFail
      = CycleResult.crashed crashState [] := by
  with_unfolding_all rfl

/-- C6 (amended): only push-delivery failures are caught; a failure
while persisting a TripEvent propagates out of the loop body and
terminates the sampling loop — the cycle publishes no frame, the event
is lost, and the previous-trip memory is left un-updated. -/
theorem c6_store_failure_kills_loop (s : MState) (e : Env)
    (hs : s.connected = true)
    (hc : (readDb39 s e.plcLive e.readData).2.connected = true)
    (ht : (readDb39 s e.plcLive e.readData).2.pump1.trip = true)
    (hp : s.prevPump1Trip = false)
    (hst : e.store1Ok = false) :
    monitorCycle s e
      = CycleResult.crashed
          { (readDb39 s e.plcLive e.readData).1 with
            lastData := some (readDb39 s e.plcLive e.readData).2
            readCount := (readDb39 s e.plcLive e.readData).1.readCount + 1 }
          [] := by
  have hp1 := (readDb39_fst_fields s e.plcLive e.readData).1
  rw [hp] at hp1
  simp only [monitorCycle, hs, if_true, runConnected, hc, ht, hst, hp1]
  simp

/-- C6 witness: from the clean connected state, a pump-1 trip frame
whose insert fails crashes the loop with no frame published. -/
theorem c6_store_failure_kills_loop_witness :
    monitorCycle twoErrState envStoreFail
      = CycleResult.crashed
          { (readDb39 twoErrState envStoreFail.plcLive
              envStoreFail.readData).1 with
            lastData := some (readDb39 twoErrState envStoreFail.plcLive
              envStoreFail.readData).2
            readCount := (readDb39 twoErrState envStoreFail.plcLive
              envStoreFail.readData).1.readCount + 1 }
          [] :=
  c6_store_failure_kills_loop twoErrState envStoreFail rfl
    (by with_unfolding_all rfl) (by with_unfolding_all rfl) rfl rfl

/-- C7: decoding a well-formed 28-byte block never fails and reads
exactly the documented offsets — pump A's flags from byte 0 bits 0-3
and floats at offsets 2, 6, 10 (rounded to 2 decimals), pump B's flags
from byte 14 bits 0-2 and floats at offsets 16, 20, 24 — and the
fixture block with byte 0 = 0b00001010 decodes pump A to alarm false,
ready true, running false, trip true, status TRIP. -/
theorem c7_decoder_layout :
    (∀ bs : List ℕ, bs.length = 28 →
      decodeBlock bs = some (decodeFrame bs)
      ∧ (decodeFrame bs).alarm = (byteAt bs 0).testBit 0
      ∧ (decodeFrame bs).pump1.ready = (byteAt bs 0).testBit 1
      ∧ (decodeFrame bs).pump1.running = (byteAt bs 0).testBit 2
      ∧ (decodeFrame bs).pump1.trip = (byteAt bs 0).testBit 3
      ∧ (decodeFrame bs).pump1.pressure = round2 (getReal bs 2)
      ∧ (decodeFrame bs).pump1.pressureSetpoint = round2 (getReal bs 6)
      ∧ (decodeFrame bs).pump1.speed = round2 (getReal bs 10)
      ∧ (decodeFrame bs).pump2.running = (byteAt bs 14).testBit 0
      ∧ (decodeFrame bs).pump2.ready = (byteAt bs 14).testBit 1
      ∧ (decodeFrame bs).pump2.trip = (byteAt bs 14).testBit 2
      ∧ (decodeFrame bs).pump2.pressure = round2 (getReal bs 16)
      ∧ (decodeFrame bs).pump2.pressureSetpoint = round2 (getReal bs 20)
      ∧ (decodeFrame bs).pump2.speed = round2 (getReal bs 24))
    ∧ (decodeBlock fixtureBlock).map
        (fun f => (f.alarm, f.pump1.ready, f.pump1.running, f.pump1.trip,
          f.pump1.status))
        = some (false, true, false, true, "TRIP") := by
  constructor
  · intro bs h
    refine ⟨?_, rfl, rfl, rfl, rfl, rfl, rfl, rfl, rfl, rfl, rfl, rfl,
      rfl, rfl⟩
    unfold decodeBlock
    rw [if_neg (by omega)]
  · with_unfolding_all rfl

/-- C7 witness: the fixture block decodes without failure. -/
theorem c7_decoder_layout_witness :
    decodeBlock fixtureBlock = some (decodeFrame fixtureBlock)
    ∧ (decodeFrame fixtureBlock).pump1.trip
        = (byteAt fixtureBlock 0).testBit 3 :=
  ⟨(c7_decoder_layout.1 fixtureBlock (by decide)).1,
    (c7_decoder_layout.1 fixtureBlock (by decide)).2.2.2.2.1⟩

/-- C8, counterexample: serving the live-status pull query on a
connected monitor performs a fresh read through the shared monitor
object — at a two-consecutive-errors state, one more failing read
during the query flips the connected flag to false and rewrites the
error counter, so the query is not effect-free on ConnectionState. -/
theorem c8_pull_query_mutates_cex :
    twoErrState.connected = true
    ∧ twoErrState.readErrorCount = 2
    ∧ getStatusRoute twoErrState envReadFail = (initState, errorFrame) := by
  exact ⟨rfl, rfl, by with_unfolding_all rfl⟩

/-- C8 (amended): the pull query is effect-free while disconnected
(returning the canonical error frame), and even when connected it never
changes the latest-frame snapshot, the previous-trip memory or the read
count — but its fresh read may rewrite the connected flag and the
consecutive-error counter. -/
theorem c8_pull_query_effects (s : MState) (e : Env) :
    (s.connected = false → getStatusRoute s e = (s, errorFrame))
    ∧ (getStatusRoute s e).1.lastData = s.lastData
    ∧ (getStatusRoute s e).1.prevPump1Trip = s.prevPump1Trip
    ∧ (getStatusRoute s e).1.prevPump2Trip = s.prevPump2Trip
    ∧ (getStatusRoute s e).1.readCount = s.readCount := by
  have hp := readDb39_fst_fields s e.plcLive e.readData
  constructor
  · intro hs
    simp [getStatusRoute, hs]
  · unfold getStatusRoute
    split
    · exact ⟨hp.2.2.1, hp.1, hp.2.1, hp.2.2.2⟩
    · exact ⟨rfl, rfl, rfl, rfl⟩

/-- C8 witness: querying while disconnected returns the canonical error
frame and leaves the state untouched. -/
theorem c8_pull_query_effects_witness :
    getStatusRoute initState envReadFail = (initState, errorFrame) :=
  (c8_pull_query_effects initState envReadFail).1 rfl


/-- C9: the event query filters rows by the inclusive timestamp range —
the end date reaching through the last second of that day — and
optionally by pump id, returns exactly the matching rows newest-first,
and returns the empty list (not an error) when nothing matches. -/
theorem c9_event_query (store : List StoredEvent)
    (sd ed pid : Option ℕ) (hsec : ∀ ev ∈ store, ev.sec < 86400) :
    List.Pairwise newerFirst (getTripEvents store sd ed pid)
    ∧ (getTripEvents store sd ed pid).Perm
        (store.filter (queryPred sd ed pid))
    ∧ (∀ d, sd = some d → ∀ ev ∈ store,
        (startPred d ev = true ↔ d ≤ ev.day))
    ∧ (∀ d, ed = some d → ∀ ev ∈ store,
        (endPred d ev = true ↔ ev.day ≤ d))
    ∧ (store.filter (queryPred sd ed pid) = [] →
        getTripEvents store sd ed pid = []) := by
  refine ⟨?_, ?_, ?_, ?_, ?_⟩
  · exact List.sorted_insertionSort newerFirst _
  · exact List.perm_insertionSort newerFirst _
  · intro d _ ev hev
    have h86 := hsec ev hev
    simp only [startPred, tsKey, decide_eq_true_eq]
    omega
  · intro d _ ev hev
    have h86 := hsec ev hev
    simp only [endPred, tsKey, decide_eq_true_eq]
    omega
  · intro h
    unfold getTripEvents
    rw [h]
    rfl

/-- A sample persisted trip event used to exercise the queries. -/
def sampleEvent : StoredEvent :=
  { id := 1
    day := 19700
    sec := 3600
    pumpName := "LINE 7 MIXER"
    pumpId := 1
    eventType := "TRIP"
    pressure := 3
    speed := 45
    description := "Pump 1 tripped - fault detected" }

/-- A second sample trip event, one day later, for pump 2. -/
def sampleEvent2 : StoredEvent :=
  { id := 2
    day := 19701
    sec := 60
    pumpName := "LINE 7 AHU/SYRUP ROOM"
    pumpId := 2
    eventType := "TRIP"
    pressure := 2
    speed := 30
    description := "Pump 2 tripped - fault detected" }

/-- C9 witness: on a concrete two-row store the query result is ordered
newest-first and is a permutation of the filtered rows. -/
theorem c9_event_query_witness :
    List.Pairwise newerFirst
      (getTripEvents [sampleEvent, sampleEvent2] (some 19700) (some 19701)
        none)
    ∧ (getTripEvents [sampleEvent, sampleEvent2] (some 19700) (some 19701)
        none).Perm
        ([sampleEvent, sampleEvent2].filter
          (queryPred (some 19700) (some 19701) none)) :=
  ⟨(c9_event_query [sampleEvent, sampleEvent2] (some 19700) (some 19701)
      none (by decide)).1,
    (c9_event_query [sampleEvent, sampleEvent2] (some 19700) (some 19701)
      none (by decide)).2.1⟩

/-- C10: the health query returns exactly one record per known pump, in
the fixed order of pump ids 1 then 2; each record's trip total is the
count of that pump's TRIP rows, its score is `max(0, 100 - 5 * trips)`
— 100 with a null last-trip timestamp at 0 trips, 80 at 4 trips,
floored at 0 from 30 trips on, and never negative. -/
theorem c10_health_scores (store : List StoredEvent) :
    (getPumpHealthStats store).map (fun r => r.pumpId) = [1, 2]
    ∧ ∀ r ∈ getPumpHealthStats store,
        r.totalTrips = (tripRows store r.pumpId).length
        ∧ r.healthScore = max 0 (100 - 5 * (r.totalTrips : ℤ))
        ∧ (r.totalTrips = 0 → r.healthScore = 100 ∧ r.lastTrip = none)
        ∧ (r.totalTrips = 4 → r.healthScore = 80)
        ∧ (30 ≤ r.totalTrips → r.healthScore = 0)
        ∧ 0 ≤ r.healthScore := by
  have hpid : ∀ pid, (healthFor store pid).pumpId = pid := by
    intro pid
    unfold healthFor
    split <;> rfl
  have hrec : ∀ pid,
      (healthFor store pid).totalTrips = (tripRows store pid).length
      ∧ (healthFor store pid).healthScore
          = max 0 (100 - 5 * ((healthFor store pid).totalTrips : ℤ))
      ∧ ((healthFor store pid).totalTrips = 0 →
          (healthFor store pid).healthScore = 100
          ∧ (healthFor store pid).lastTrip = none)
      ∧ ((healthFor store pid).totalTrips = 4 →
          (healthFor store pid).healthScore = 80)
      ∧ (30 ≤ (healthFor store pid).totalTrips →
          (healthFor store pid).healthScore = 0)
      ∧ 0 ≤ (healthFor store pid).healthScore := by
    intro pid
    unfold healthFor
    split
    case isTrue he =>
      have hnil : tripRows store pid = [] := by
        simpa using he
      refine ⟨?_, ?_, fun _ => ⟨rfl, rfl⟩, ?_, ?_, ?_⟩
      · show 0 = (tripRows store pid).length
        rw [hnil]
        rfl
      · show (100 : ℤ) = max 0 (100 - 5 * ((0 : ℕ) : ℤ))
        norm_num
      · intro h4
        exact absurd (show (0 : ℕ) = 4 from h4) (by norm_num)
      · intro h30
        exact absurd (show (30 : ℕ) ≤ 0 from h30) (by norm_num)
      · show (0 : ℤ) ≤ 100
        norm_num
    case isFalse he =>
      refine ⟨rfl, rfl, ?_, ?_, ?_, le_max_left 0 _⟩
      · intro h0
        have hnil : tripRows store pid = [] :=
          List.length_eq_zero.mp h0
        rw [hnil] at he
        exact absurd rfl he
      · intro h4
        have h4L : (tripRows store pid).length = 4 := h4
        show max 0 (100 - 5 * ((tripRows store pid).length : ℤ)) = 80
        rw [h4L]
        norm_num
      · intro h30
        have h30L : 30 ≤ (tripRows store pid).length := h30
        show max 0 (100 - 5 * ((tripRows store pid).length : ℤ)) = 0
        have hle : (100 : ℤ) - 5 * ((tripRows store pid).length : ℤ) ≤ 0 := by
          have : (30 : ℤ) ≤ ((tripRows store pid).length : ℤ) := by
            exact_mod_cast h30L
          omega
        exact max_eq_left hle
  constructor
  · show [(healthFor store 1).pumpId, (healthFor store 2).pumpId] = [1, 2]
    rw [hpid, hpid]
  · intro r hr
    have : r = healthFor store 1 ∨ r = healthFor store 2 := by
      simpa [getPumpHealthStats] using hr
    rcases this with h | h
    · rw [h, hpid 1]
      exact hrec 1
    · rw [h, hpid 2]
      exact hrec 2

/-- C10 witness: on the empty store both pumps score 100 with no
last-trip timestamp, and the ids come back in fixed order. -/
theorem c10_health_scores_witness :
    (getPumpHealthStats []).map (fun r => r.pumpId) = [1, 2]
    ∧ ((⟨1, "LINE 7 MIXER", 0, none, 100⟩ : HealthRecord).healthScore = 100
      ∧ (⟨1, "LINE 7 MIXER", 0, none, 100⟩ : HealthRecord).lastTrip
          = none) :=
  ⟨(c10_health_scores []).1,
    ((c10_health_scores []).2 ⟨1, "LINE 7 MIXER", 0, none, 100⟩
      (by decide)).2.2.1 rfl⟩


end Challawa
